import Mathlib

/-
Verification of the admission / scheduling / resilience core of the
enterprise-multi-tenant-genai-platform repository.

The Lean definitions below are a shallow embedding of the Python sources:

  * app/services/governance_service.py  (validate_prompt, check_cross_tenant_leakage)
  * app/core/security.py                (PromptInjectionDetector.is_injection_attempt)
  * app/services/rag_service.py         (RAGService.generate_response, control flow)
  * app/routes/query.py                 (exception-to-HTTP-status mapping)
  * app/dependencies/tenant.py          (TokenBucket.try_consume)
  * app/services/scheduler.py           (PriorityQueue.enqueue/dequeue, FairScheduler)
  * app/core/resilience.py              (with_retry, ResilientClient.execute_with_resilience)
  * app/core/cache.py                   (RedisCache.get_cache_key, clear_tenant_cache)
  * app/core/settings.py / config.py    (constants)

Python floats that only ever hold exact small decimals and timestamps are
modelled as rationals; machine integers as Nat/Int.  Stateful methods are
modelled as explicit state-passing functions.  Redis structures (list, sorted
set, keyspace) are modelled as Lean lists, with the operations the code uses
(LPUSH / RPOP / LLEN / ZADD / ZRANGE 0 0 / ZREM / SCAN match prefix / DEL).
-/

namespace Platform

/-! ### Constants from app/core/settings.py and app/core/config.py -/

/-- settings.MAX_QUEUE_DEPTH (default 100). -/
def MAX_QUEUE_DEPTH : Nat := 100

/-- settings.MAX_INFLIGHT_PER_POD (default 50). -/
def MAX_INFLIGHT_PER_POD : Nat := 50

/-- config.Settings.cross_tenant_leakage_check_enabled (default True). -/
def cross_tenant_leakage_check_enabled : Bool := true

/-! ### Governance: prompt-injection screen (governance_service.validate_prompt) -/

/-- The fixed INJECTION_PATTERNS list of governance_service.py (plain substrings,
matched against the lower-cased query). -/
def INJECTION_PATTERNS : List String :=
  ["ignore previous instructions",
   "ignore the above instructions",
   "disregard",
   "forget the system prompt",
   "you are now in developer mode",
   "system override",
   "execute this command",
   "bypass"]

/-- Contiguous-sublist test on character lists. -/
def listContains (needle : List Char) : List Char → Bool
  | [] => needle.isPrefixOf []
  | c :: t => needle.isPrefixOf (c :: t) || listContains needle t

/-- Python `needle in hay` on strings: substring containment. -/
def containsSub (needle hay : String) : Bool :=
  listContains needle.toList hay.toList

/-- Python str.lower (via Char.toLower; the queries involved are ASCII). -/
def pyLower (s : String) : String :=
  String.mk (s.toList.map Char.toLower)

/-- governance_service.validate_prompt: returns the first matching injection
pattern (the Python code raises ValueError on it), or none when the query
passes the screen. -/
def validate_prompt (query : String) : Option String :=
  INJECTION_PATTERNS.find? (fun p => containsSub p (pyLower query))

/-! ### Governance: cross-tenant leakage check -/

/-- A retrieved document as the governance code sees it: an optional top-level
tenant_id, an optional metadata.tenant_id, a doc_id and content.  `none`
models an absent field, `some ""` an empty-string field (falsy in Python). -/
structure Doc where
  tenant_id : Option String
  metadata_tenant_id : Option String
  doc_id : String
  content : String
deriving DecidableEq, Repr

/-- Python truthiness of an optional string: absent and empty are falsy. -/
def truthy (o : Option String) : Option String :=
  match o with
  | none => none
  | some s => if s = "" then none else some s

/-- `doc.get("tenant_id") or doc.get("metadata", \x7b\x7d).get("tenant_id")`
followed by the truthiness test of the result: the effective document tenant
id the check compares against, if any. -/
def docTenantId (d : Doc) : Option String :=
  match truthy d.tenant_id with
  | some t => some t
  | none => truthy d.metadata_tenant_id

/-- The loop of check_cross_tenant_leakage: the first document whose effective
tenant id is present and differs from the requesting tenant (the code raises
on it), if any. -/
def findLeak (docs : List Doc) (requesting : String) : Option Doc :=
  docs.find? (fun d =>
    match docTenantId d with
    | some t => decide (t ≠ requesting)
    | none => false)

/-- Result of one call to check_cross_tenant_leakage: the violating document
(the raise), the number of cross_tenant_leakage_attempts counter increments,
and the audit security events emitted (by event_type). -/
structure CheckResult where
  violation : Option Doc
  counter_incs : Nat
  events : List String
deriving DecidableEq, Repr

/-- governance_service.check_cross_tenant_leakage: no-op when the setting is
off; otherwise scans the documents in order and, on the first one whose
effective tenant id is truthy and differs from the requesting tenant,
increments the leakage counter, emits a cross_tenant_leakage_attempt security
event and raises ValueError. -/
def check_cross_tenant_leakage (docs : List Doc) (requesting : String) : CheckResult :=
  if cross_tenant_leakage_check_enabled = false then ⟨none, 0, []⟩
  else
    match findLeak docs requesting with
    | some d => ⟨some d, 1, ["cross_tenant_leakage_attempt"]⟩
    | none => ⟨none, 0, []⟩

/-! ### Security: PromptInjectionDetector (app/core/security.py)

The INJECTION_KEYWORDS are regexes of the shape `\bw\b` where `w` is a
literal (possibly multi-word) phrase, except `role\s*play` whose two tokens
are joined by `\s*`.  We embed exactly that pattern language. -/

/-- A regex word char for `\b`: [A-Za-z0-9_]. -/
def isWordChar (c : Char) : Bool :=
  ('a' ≤ c && c ≤ 'z') || ('A' ≤ c && c ≤ 'Z') || ('0' ≤ c && c ≤ '9') || c = '_'

/-- Python regex `\s` class members relevant here. -/
def pyIsSpace (c : Char) : Bool :=
  c = ' ' || c = '\t' || c = '\n' || c = '\r' || c = Char.ofNat 11 || c = Char.ofNat 12

/-- One keyword pattern `\b tok₀ \s* tok₁ \s* … \b`: the regex source text and
its literal tokens. -/
structure KeywordPattern where
  src : String
  toks : List (List Char)
deriving Repr

/-- Match a literal at the head of the input, returning the remainder. -/
def matchLit : List Char → List Char → Option (List Char)
  | [], s => some s
  | _ :: _, [] => none
  | c :: cs, x :: xs => if c = x then matchLit cs xs else none

/-- Match the token sequence at the head of the input (tokens joined by
`\s*`, greedily — sound here because no token starts with whitespace). -/
def matchToks : List (List Char) → List Char → Option (List Char)
  | [], s => some s
  | t :: ts, s =>
    match matchLit t s with
    | none => none
    | some rest =>
      match ts with
      | [] => some rest
      | _ => matchToks ts (rest.dropWhile pyIsSpace)

/-- Right word boundary after a match: end of input or a non-word char. -/
def boundaryRight (rest : List Char) : Bool :=
  match rest with
  | [] => true
  | c :: _ => !isWordChar c

/-- Left word boundary before the current position. -/
def boundaryLeft (prev : Option Char) : Bool :=
  match prev with
  | none => true
  | some c => !isWordChar c

/-- Does the pattern match starting exactly at the current position? -/
def matchHere (p : KeywordPattern) (prev : Option Char) (s : List Char) : Bool :=
  boundaryLeft prev &&
    (match matchToks p.toks s with
     | some rest => boundaryRight rest
     | none => false)

/-- re.search: scan every position for a boundary-delimited match. -/
def scanFrom (p : KeywordPattern) : Option Char → List Char → Bool
  | prev, [] => matchHere p prev []
  | prev, c :: cs => matchHere p prev (c :: cs) || scanFrom p (some c) cs

/-- Whether `re.search(pattern, text)` succeeds for one keyword pattern. -/
def kwSearch (p : KeywordPattern) (text : String) : Bool :=
  scanFrom p none text.toList

/-- Helper to build a single-token `\bw\b` pattern. -/
def kw1 (w : String) : KeywordPattern := ⟨w, [w.toList]⟩

/-- PromptInjectionDetector.INJECTION_KEYWORDS, in source order. -/
def INJECTION_KEYWORDS : List KeywordPattern :=
  [kw1 ("ignore"), kw1 ("disregard"), kw1 ("override"), kw1 ("bypass"),
   kw1 ("forget"), kw1 ("clear context"), kw1 ("new instructions"),
   kw1 ("you are now"), kw1 ("respond as"), kw1 ("act as"), kw1 ("pretend"),
   ⟨"role play", [("role").toList, ("play").toList]⟩]

/-- PromptInjectionDetector.is_injection_attempt (Layer 1): the first keyword
pattern found by re.search in the lower-cased query, or none. -/
def is_injection_attempt (query : String) : Option String :=
  (INJECTION_KEYWORDS.find? (fun p => kwSearch p (pyLower query))).map (fun p => p.src)

/-! ### RAG pipeline control flow (rag_service.RAGService.generate_response)

The pipeline is modelled as a function of the query, the requesting tenant
and the document list the retrieval adapter returned. -/

/-- Outcome of one generate_response run. -/
inductive RagOutcome where
  | injectionRejected (pattern : String)
  | noDocs
  | leakageRejected (d : Doc)
  | success (context : String) (docs : List Doc)
deriving DecidableEq, Repr

/-- `"\n".join([f"[\x7bdoc_id\x7d] \x7bcontent\x7d" for doc in docs])`. -/
def buildContext (docs : List Doc) : String :=
  String.intercalate ("\n") (docs.map (fun d => "[" ++ d.doc_id ++ "] " ++ d.content))

/-- Observable effects of one generate_response run. -/
structure RagRun where
  outcome : RagOutcome
  leakage_counter : Nat
  security_events : List String
  retrieval_called : Bool
  llm_called : Bool
deriving DecidableEq, Repr

/-- RAGService.generate_response, steps 1–6: validate_prompt, retrieval,
check_cross_tenant_leakage, context build, LLM call.  A raise in step 1 or 3
propagates out before the later steps run. -/
def generate_response (query : String) (docs : List Doc) (tenant : String) : RagRun :=
  match validate_prompt query with
  | some p => ⟨.injectionRejected p, 0, ["prompt_injection"], false, false⟩
  | none =>
    if docs.isEmpty then ⟨.noDocs, 0, [], true, false⟩
    else
      let chk := check_cross_tenant_leakage docs tenant
      match chk.violation with
      | some d => ⟨.leakageRejected d, chk.counter_incs, chk.events, true, false⟩
      | none => ⟨.success (buildContext docs) docs, chk.counter_incs, chk.events, true, true⟩

/-- routes/query.py exception mapping: ValueError → HTTP 400, anything else →
500, normal return → 200.  Both the injection raise and the leakage raise are
ValueErrors. -/
def route_status : RagOutcome → Nat
  | .injectionRejected _ => 400
  | .leakageRejected _ => 400
  | .noDocs => 200
  | .success _ _ => 200

/-! ### Scheduler (app/services/scheduler.py) -/

/-- Tenant tiers (schemas.TenantTier / scheduler.RequestPriority). -/
inductive Tier where
  | enterprise
  | professional
  | starter
  | free
deriving DecidableEq, Repr

/-- RequestPriority: tier ↦ priority value, lower = higher priority. -/
def tierPriority : Tier → Nat
  | .enterprise => 0
  | .professional => 1
  | .starter => 2
  | .free => 3

/-- FairScheduler.FAIR_SHARES.  The Python values are the floats 0.50 / 0.30 /
0.15 / 0.05; modelled as the exact rationals (for MAX_INFLIGHT_PER_POD = 50
the float caps int(50*share) coincide with the rational floors 25/15/7/2). -/
def FAIR_SHARES : Tier → ℚ
  | .enterprise => 1/2
  | .professional => 3/10
  | .starter => 3/20
  | .free => 1/20

/-- A queued request (schemas.QueuedRequest as used by the scheduler). -/
structure QueuedRequest where
  request_id : String
  tenant_id : String
  user_id : String
  priority : Nat
  submitted_at : ℚ
deriving DecidableEq, Repr

/-- `priority_score = tier_priority * 1e9 + timestamp`. -/
def priorityScore (r : QueuedRequest) : ℚ :=
  (r.priority : ℚ) * 10 ^ 9 + r.submitted_at

/-- The two redis structures of PriorityQueue: the per-pod local list (head =
most recent LPUSH) and the global sorted set of member / score pairs. -/
structure PQState where
  local_q : List QueuedRequest
  global_q : List (QueuedRequest × ℚ)
deriving DecidableEq, Repr

/-- PriorityQueue.enqueue: LPUSH onto the local list while its LLEN is below
MAX_QUEUE_DEPTH, otherwise ZADD into the global sorted set with the priority
score; always returns the queued request (there is no overflow path). -/
def PQState.enqueue (st : PQState) (r : QueuedRequest) : QueuedRequest × PQState :=
  if st.local_q.length < MAX_QUEUE_DEPTH then
    (r, ⟨r :: st.local_q, st.global_q⟩)
  else
    (r, ⟨st.local_q, st.global_q ++ [(r, priorityScore r)]⟩)

/-- ZRANGE key 0 0: the member with minimal score (first-inserted wins ties,
matching the deterministic order of the model). -/
def zrange00 : List (QueuedRequest × ℚ) → Option (QueuedRequest × ℚ)
  | [] => none
  | p :: ps =>
    match zrange00 ps with
    | none => some p
    | some q => if p.2 ≤ q.2 then some p else some q

/-- PriorityQueue.dequeue: RPOP the local list (its last element, i.e. the
oldest LPUSHed); on an empty local list take the minimum-score member of the
global sorted set and ZREM it; none if both are empty. -/
def PQState.dequeue (st : PQState) : Option QueuedRequest × PQState :=
  match st.local_q.getLast? with
  | some r => (some r, ⟨st.local_q.dropLast, st.global_q⟩)
  | none =>
    match zrange00 st.global_q with
    | some p => (some p.1, ⟨st.local_q, st.global_q.erase p⟩)
    | none => (none, st)

/-- FairScheduler state: the tenant → in-flight-count map and the total. -/
structure FairScheduler where
  in_flight_requests : List (String × Nat)
  total_in_flight : Nat
deriving DecidableEq, Repr

/-- FairScheduler._get_in_flight_for_tier.  Faithful to the source: the loop
sums count_val over ALL tenants and never reads the `tier` argument. -/
def FairScheduler.get_in_flight_for_tier (s : FairScheduler) (_tier : Tier) : Nat :=
  (s.in_flight_requests.map Prod.snd).sum

/-- Increment one tenant's entry of an association list (insert at 1). -/
def bumpAssoc : List (String × Nat) → String → List (String × Nat)
  | [], t => [(t, 1)]
  | (k, v) :: rest, t =>
    if k = t then (k, v + 1) :: rest else (k, v) :: bumpAssoc rest t

/-- FairScheduler._add_in_flight. -/
def FairScheduler.add_in_flight (s : FairScheduler) (tenant : String) : FairScheduler :=
  ⟨bumpAssoc s.in_flight_requests tenant, s.total_in_flight + 1⟩

/-- `max_capacity = int(settings.MAX_INFLIGHT_PER_POD * fair_share)`. -/
def tierCap (t : Tier) : ℤ :=
  ⌊(MAX_INFLIGHT_PER_POD : ℚ) * FAIR_SHARES t⌋

/-- The tier scan order of FairScheduler.schedule_next. -/
def tiersInOrder : List Tier :=
  [.enterprise, .professional, .starter, .free]

/-- The per-tier loop body of schedule_next. -/
def scheduleGo : FairScheduler → PQState → List Tier →
    Option QueuedRequest × FairScheduler × PQState
  | s, pq, [] => (none, s, pq)
  | s, pq, t :: ts =>
    if (s.get_in_flight_for_tier t : ℤ) < tierCap t then
      match pq.dequeue with
      | (some r, pq1) => (some r, s.add_in_flight r.tenant_id, pq1)
      | (none, pq1) => scheduleGo s pq1 ts
    else scheduleGo s pq ts

/-- FairScheduler.schedule_next: none on empty queues, else the tier loop. -/
def FairScheduler.schedule_next (s : FairScheduler) (pq : PQState) :
    Option QueuedRequest × FairScheduler × PQState :=
  if pq.local_q.length + pq.global_q.length = 0 then (none, s, pq)
  else scheduleGo s pq tiersInOrder

/-! ### Token bucket (app/dependencies/tenant.py TokenBucket) -/

/-- TokenBucket state; floats modelled as rationals. -/
structure TokenBucket where
  capacity : ℚ
  tokens : ℚ
  refill_rate : ℚ
  last_refill_time : Option ℚ
deriving DecidableEq, Repr

/-- The refill step of try_consume: add `(now - last_refill) * refill_rate`
capped at capacity (a fresh bucket sets last_refill := now, adding 0). -/
def TokenBucket.refilled (b : TokenBucket) (now : ℚ) : ℚ :=
  min b.capacity (b.tokens + (now - b.last_refill_time.getD now) * b.refill_rate)

/-- TokenBucket.try_consume: refill, then consume `req` tokens iff at least
`req` are present; the clock is stamped either way. -/
def TokenBucket.try_consume (b : TokenBucket) (req : ℚ) (now : ℚ) :
    Bool × TokenBucket :=
  let t1 := b.refilled now
  if req ≤ t1 then (true, ⟨b.capacity, t1 - req, b.refill_rate, some now⟩)
  else (false, ⟨b.capacity, t1, b.refill_rate, some now⟩)

/-! ### Circuit breaker (app/core/resilience.py) -/

/-- Breaker state.  Modelled from the spec: the Closed/Open/HalfOpen
transition logic lives in the third-party pybreaker library, which is not
part of this repository; §4.5 of the spec defines it and resilience.py only
instantiates it (fail_max=5, reset_timeout=60, one breaker per (service,
tenant)).  HalfOpen is entered implicitly by a call arriving after
reset_timeout. -/
inductive BreakerState where
  | closed (consecutive_failures : Nat)
  | opened (opened_at : ℚ)
deriving DecidableEq, Repr

/-- A per-(service, tenant) circuit breaker. -/
structure CircuitBreaker where
  fail_max : Nat
  reset_timeout : ℚ
  state : BreakerState
deriving DecidableEq, Repr

/-- What one call through the breaker did. -/
inductive CallOutcome where
  | shortCircuited
  | succeeded
  | failed
deriving DecidableEq, Repr

/-- Modelled from the spec: one call through the breaker at time `now`, where
`adapterSucceeds` tells whether the wrapped adapter would succeed if invoked.
Closed: pass the call, count consecutive failures, trip Open at fail_max.
Open: short-circuit while now - opened_at < reset_timeout, else allow a
single half-open probe whose success closes the breaker (counter reset) and
whose failure reopens it (timer restarted). -/
def CircuitBreaker.call (b : CircuitBreaker) (now : ℚ) (adapterSucceeds : Bool) :
    CallOutcome × CircuitBreaker :=
  match b.state with
  | .closed f =>
    if adapterSucceeds then (.succeeded, { b with state := .closed 0 })
    else if b.fail_max ≤ f + 1 then (.failed, { b with state := .opened now })
    else (.failed, { b with state := .closed (f + 1) })
  | .opened t0 =>
    if now - t0 < b.reset_timeout then (.shortCircuited, b)
    else if adapterSucceeds then (.succeeded, { b with state := .closed 0 })
    else (.failed, { b with state := .opened now })

/-- Whether the wrapped adapter was invoked by a call with this outcome. -/
def adapterInvoked : CallOutcome → Bool
  | .shortCircuited => false
  | .succeeded => true
  | .failed => true

/-- llm_circuit_breaker construction parameters (resilience.py lines 48-52). -/
def llm_breaker (st : BreakerState) : CircuitBreaker :=
  ⟨5, 60, st⟩

/-- Run a sequence of failing calls at the given times. -/
def failCalls (b : CircuitBreaker) : List ℚ → CircuitBreaker
  | [] => b
  | t :: ts => failCalls (b.call t false).2 ts

/-! ### Retry (app/core/resilience.py with_retry, execute_with_resilience) -/

/-- Classification of a raised error, per the spec taxonomy. -/
inductive ErrKind where
  | transient
  | validation
  | circuitOpen
  | otherErr
deriving DecidableEq, Repr

/-- The retry predicate with_retry installs:
`retry_if_exception_type(exceptions)` with the default
`exceptions = (Exception,)`.  Every raised error is an instance of Exception,
so the predicate holds for every error kind. -/
def retry_on_exception (_e : ErrKind) : Bool := true

/-- The outcome one adapter invocation would have. -/
inductive AttemptOutcome where
  | ok
  | err (e : ErrKind)
deriving DecidableEq, Repr

/-- The attempt loop of with_retry (tenacity Retrying with
stop_after_attempt(max_attempts) and the retry predicate): given the
outcome each adapter invocation would have, return how many invocations are
made and the final result.  `remaining` counts attempts still allowed. -/
def runRetry (retryOn : ErrKind → Bool) : Nat → List AttemptOutcome →
    Nat × AttemptOutcome
  | _, [] => (0, .err .otherErr)
  | remaining, r :: rs =>
    match r with
    | .ok => (1, .ok)
    | .err e =>
      if remaining ≤ 1 then (1, .err e)
      else if retryOn e then
        let rest := runRetry retryOn (remaining - 1) rs
        (rest.1 + 1, rest.2)
      else (1, .err e)

/-- with_retry with its defaults in rag_service: max_attempts = 3, retry on
every Exception. -/
def with_retry_run (results : List AttemptOutcome) : Nat × AttemptOutcome :=
  runRetry retry_on_exception 3 results

/-- ResilientClient.execute_with_resilience: explicit loop over
range(max_retries), bare `except Exception` (no classification), wait
`2 ** attempt` seconds before each re-attempt, re-raise on the last one.
Returns (invocations made, waits slept, final result). -/
def ewrAux : Nat → Nat → List AttemptOutcome →
    Nat × List ℚ × AttemptOutcome
  | _, _, [] => (0, [], .err .otherErr)
  | attempt, maxR, r :: rs =>
    match r with
    | .ok => (1, [], .ok)
    | .err e =>
      if attempt = maxR - 1 then (1, [], .err e)
      else
        let rest := ewrAux (attempt + 1) maxR rs
        (rest.1 + 1, ((2 : ℚ) ^ attempt) :: rest.2.1, rest.2.2)

/-- execute_with_resilience with attempt counter starting at 0. -/
def execute_with_resilience (max_retries : Nat)
    (results : List AttemptOutcome) :
    Nat × List ℚ × AttemptOutcome :=
  ewrAux 0 max_retries results

/-! ### Cache-key discipline (app/core/cache.py RedisCache) -/

/-- Python `":".join(parts)`. -/
def joinColon : List String → String
  | [] => ""
  | [x] => x
  | x :: y :: rest => x ++ ":" ++ joinColon (y :: rest)

/-- RedisCache.get_cache_key: join `[tenant_id] + args` with ":"; keys longer
than 200 characters are replaced by `tenant_id:` followed by the md5 hex
digest of the full key.  The digest function (hashlib.md5(...).hexdigest) is
an external library and is passed in as a parameter. -/
def get_cache_key (md5hex : String → String) (tenant_id : String)
    (args : List String) : String :=
  let key_string := joinColon (tenant_id :: args)
  if 200 < key_string.length then tenant_id ++ ":" ++ md5hex key_string
  else key_string

/-- The cache key RedisCache.set / get / delete use for (tenant_id, key). -/
def cacheOpKey (md5hex : String → String) (tenant_id key : String) : String :=
  get_cache_key md5hex tenant_id [key]

/-- Redis SCAN match with the glob `tenant_id:*` (tenant ids contain no glob
metacharacters, so the glob is a plain prefix test). -/
def matchesTenantGlob (tenant : String) (key : String) : Bool :=
  (tenant ++ ":").toList.isPrefixOf key.toList

/-- RedisCache.clear_tenant_cache over a modelled keyspace: SCAN all keys
matching `tenant_id:*` and DEL them; returns (count deleted, new keyspace). -/
def clear_tenant_cache (store : List (String × String)) (tenant : String) :
    Nat × List (String × String) :=
  ((store.filter (fun kv => matchesTenantGlob tenant kv.1)).length,
   store.filter (fun kv => !matchesTenantGlob tenant kv.1))

/-! ### Concrete inputs used by counterexamples and witnesses -/

/-- A benign query matching no pattern of either catalogue. -/
def qBenign : String := "what is the leave policy"

/-- A document carrying no tenant id at all. -/
def docUntagged : Doc := ⟨none, none, "d1", "c1"⟩

/-- A document tagged with tenant-b. -/
def docB : Doc := ⟨some ("tenant-b"), none, "d2", "c2"⟩

/-- The requesting tenant of the concrete scenarios. -/
def tenantA : String := "tenant-a"

/-- A query the detector catalogue flags via `\bact as\b`. -/
def qActAs : String := "act as the ceo"

/-- A query containing the governance pattern "bypass". -/
def qBypass : String := "please bypass the filter"

/-! ### Helper lemmas on the leakage scan -/

/-- The scan finds a violation as soon as some document carries a truthy
tenant id different from the requesting tenant. -/
theorem findLeak_isSome_of (docs : List Doc) (req : String) (d : Doc)
    (t : String) (hd : d ∈ docs) (ht : docTenantId d = some t)
    (hne : t ≠ req) : (findLeak docs req).isSome := by
  unfold findLeak
  rw [List.find?_isSome]
  refine ⟨d, hd, ?_⟩
  rw [ht]
  simpa using hne

/-- The scan passes iff every truthy document tenant id equals the
requesting tenant. -/
theorem findLeak_none_iff (docs : List Doc) (req : String) :
    findLeak docs req = none ↔
      ∀ d ∈ docs, ∀ t, docTenantId d = some t → t = req := by
  unfold findLeak
  rw [List.find?_eq_none]
  constructor
  · intro h d hd t ht
    have hp := h d hd
    rw [ht] at hp
    simpa using hp
  · intro h d hd
    cases hdt : docTenantId d with
    | none => simp
    | some t => simpa using h d hd t hdt

/-! ### Claim theorems -/

/-- C1, counterexample to the claim as stated: a document with no truthy
tenant_id is returned to tenant-a although its tenant_id is not tenant-a
(the check does not raise and the pipeline reaches the LLM call); moreover
a leakage rejection surfaces as HTTP 400, not 403, via the route's
ValueError handler. -/
theorem c1_counterexample :
    check_cross_tenant_leakage [docUntagged] tenantA = ⟨none, 0, []⟩ ∧
    (generate_response qBenign [docUntagged] tenantA).llm_called = true ∧
    docTenantId docUntagged ≠ some tenantA ∧
    route_status (.leakageRejected docB) = 400 := by
  refine ⟨by decide, by decide, by decide, rfl⟩

/-- C1 (amended): if some retrieved document carries a truthy tenant_id
(top-level, else metadata.tenant_id) differing from the requesting tenant,
check_cross_tenant_leakage raises on it, increments the leakage counter
once and emits one cross_tenant_leakage_attempt security event, and the
pipeline aborts — surfaced as HTTP 400 — before the LLM call; consequently
every document of a successful response either carries the requesting
tenant's id or carries no truthy tenant id at all. -/
theorem c1_isolation_check_amended :
    (∀ (docs : List Doc) (tenant : String) (d : Doc) (t : String),
       d ∈ docs → docTenantId d = some t → t ≠ tenant →
       (check_cross_tenant_leakage docs tenant).violation.isSome = true ∧
       (check_cross_tenant_leakage docs tenant).counter_incs = 1 ∧
       (check_cross_tenant_leakage docs tenant).events =
         ["cross_tenant_leakage_attempt"]) ∧
    (∀ (q : String) (docs : List Doc) (tenant : String) (d : Doc) (t : String),
       d ∈ docs → docTenantId d = some t → t ≠ tenant →
       validate_prompt q = none →
       ∃ d0, (generate_response q docs tenant).outcome = .leakageRejected d0 ∧
         (generate_response q docs tenant).llm_called = false ∧
         (generate_response q docs tenant).leakage_counter = 1 ∧
         (generate_response q docs tenant).security_events =
           ["cross_tenant_leakage_attempt"] ∧
         route_status (generate_response q docs tenant).outcome = 400) ∧
    (∀ (q : String) (docs : List Doc) (tenant : String) (ctx : String)
       (ds : List Doc),
       (generate_response q docs tenant).outcome = .success ctx ds →
       ds = docs ∧ ∀ d ∈ docs, docTenantId d = none ∨ docTenantId d = some tenant) := by
  refine ⟨?_, ?_, ?_⟩
  · intro docs tenant d t hd ht hne
    have hs := findLeak_isSome_of docs tenant d t hd ht hne
    obtain ⟨d0, hd0⟩ := Option.isSome_iff_exists.mp hs
    simp [check_cross_tenant_leakage, cross_tenant_leakage_check_enabled, hd0]
  · intro q docs tenant d t hd ht hne hq
    have hs := findLeak_isSome_of docs tenant d t hd ht hne
    obtain ⟨d0, hd0⟩ := Option.isSome_iff_exists.mp hs
    have hne2 : docs.isEmpty = false := by
      cases docs with
      | nil => cases hd
      | cons a as => rfl
    refine ⟨d0, ?_⟩
    simp [generate_response, hq, hne2, check_cross_tenant_leakage,
          cross_tenant_leakage_check_enabled, hd0, route_status]
  · intro q docs tenant ctx ds hsucc
    unfold generate_response at hsucc
    cases hq : validate_prompt q with
    | some p => rw [hq] at hsucc; cases hsucc
    | none =>
      rw [hq] at hsucc
      by_cases hemp : docs.isEmpty
      · rw [if_pos hemp] at hsucc; cases hsucc
      · rw [if_neg hemp] at hsucc
        cases hfl : findLeak docs tenant with
        | some d0 =>
          simp [check_cross_tenant_leakage, cross_tenant_leakage_check_enabled,
                hfl] at hsucc
        | none =>
          simp [check_cross_tenant_leakage, cross_tenant_leakage_check_enabled,
                hfl] at hsucc
          refine ⟨hsucc.2.symm, ?_⟩
          intro d hd
          cases hdt : docTenantId d with
          | none => exact Or.inl rfl
          | some t =>
            exact Or.inr (by rw [(findLeak_none_iff docs tenant).mp hfl d hd t hdt])

/-- C1 witness: the amended theorem applied to a concrete cross-tenant
document. -/
theorem c1_isolation_check_amended_witness :
    (docB ∈ [docB] ∧ docTenantId docB = some ("tenant-b") ∧
     "tenant-b" ≠ tenantA ∧ validate_prompt qBenign = none) ∧
    (∃ d0, (generate_response qBenign [docB] tenantA).outcome = .leakageRejected d0 ∧
      (generate_response qBenign [docB] tenantA).llm_called = false ∧
      (generate_response qBenign [docB] tenantA).leakage_counter = 1 ∧
      (generate_response qBenign [docB] tenantA).security_events =
        ["cross_tenant_leakage_attempt"] ∧
      route_status (generate_response qBenign [docB] tenantA).outcome = 400) :=
  ⟨⟨by decide, by decide, by decide, by decide⟩,
   c1_isolation_check_amended.2.1 qBenign [docB] tenantA docB ("tenant-b")
     (by decide) (by decide) (by decide) (by decide)⟩

/-- C10: a document carrying no truthy tenant_id (neither top-level nor in
metadata) never trips check_cross_tenant_leakage — a list of such documents
passes with no counter increment and no security event — and those untagged
documents flow on into the LLM context of a successful run. -/
theorem c10_untagged_docs_pass :
    ∀ (tenant : String) (docs : List Doc),
      (∀ d ∈ docs, docTenantId d = none) →
      check_cross_tenant_leakage docs tenant = ⟨none, 0, []⟩ ∧
      ∀ q, validate_prompt q = none → docs ≠ [] →
        generate_response q docs tenant =
          ⟨.success (buildContext docs) docs, 0, [], true, true⟩ := by
  intro tenant docs huntagged
  have hfl : findLeak docs tenant = none := by
    rw [findLeak_none_iff]
    intro d hd t ht
    rw [huntagged d hd] at ht
    cases ht
  constructor
  · simp [check_cross_tenant_leakage, cross_tenant_leakage_check_enabled, hfl]
  · intro q hq hne
    have hemp : docs.isEmpty = false := by
      cases docs with
      | nil => exact absurd rfl hne
      | cons a as => rfl
    simp [generate_response, hq, hemp, check_cross_tenant_leakage,
          cross_tenant_leakage_check_enabled, hfl]

/-- C10 witness: the theorem applied to one untagged document. -/
theorem c10_untagged_docs_pass_witness :
    ((∀ d ∈ [docUntagged], docTenantId d = none) ∧
     validate_prompt qBenign = none ∧ [docUntagged] ≠ []) ∧
    generate_response qBenign [docUntagged] tenantA =
      ⟨.success (buildContext [docUntagged]) [docUntagged], 0, [], true, true⟩ :=
  ⟨⟨by decide, by decide, by decide⟩,
   (c10_untagged_docs_pass tenantA [docUntagged] (by decide)).2 qBenign
     (by decide) (by decide)⟩

/-- C8, counterexample to the claim as stated: "act as the ceo" matches the
claimed catalogue (PromptInjectionDetector flags it via `\bact as\b`) yet
validate_prompt — the only screen the RAG pipeline invokes — passes it and
the pipeline proceeds to a successful LLM call. -/
theorem c8_counterexample :
    is_injection_attempt qActAs = some ("act as") ∧
    validate_prompt qActAs = none ∧
    (generate_response qActAs [docUntagged] tenantA).outcome =
      .success (buildContext [docUntagged]) [docUntagged] ∧
    (generate_response qActAs [docUntagged] tenantA).llm_called = true := by
  refine ⟨by decide, by decide, by decide, by decide⟩

/-- C8 (amended): the screen the pipeline actually runs is validate_prompt,
which rejects exactly the queries whose lower-cased text contains one of the
eight fixed INJECTION_PATTERNS substrings; a match aborts the run — HTTP 400
— with a prompt_injection security event before retrieval and before the LLM
call, and a non-matching query passes the screen into retrieval.  (The wider
regex catalogue with "act as", bare "ignore", "override" etc. lives in
PromptInjectionDetector, which the pipeline does not invoke.) -/
theorem c8_validate_prompt_amended :
    (∀ q, (validate_prompt q).isSome ↔
       ∃ p ∈ INJECTION_PATTERNS, containsSub p (pyLower q) = true) ∧
    (∀ (q p : String) (docs : List Doc) (tenant : String),
       validate_prompt q = some p →
       generate_response q docs tenant =
         ⟨.injectionRejected p, 0, ["prompt_injection"], false, false⟩ ∧
       route_status (generate_response q docs tenant).outcome = 400) ∧
    (∀ (q : String) (docs : List Doc) (tenant : String),
       validate_prompt q = none →
       (generate_response q docs tenant).retrieval_called = true) := by
  refine ⟨?_, ?_, ?_⟩
  · intro q
    unfold validate_prompt
    rw [List.find?_isSome]
  · intro q p docs tenant hq
    constructor
    · simp [generate_response, hq]
    · simp [generate_response, hq, route_status]
  · intro q docs tenant hq
    unfold generate_response
    rw [hq]
    by_cases hemp : docs.isEmpty
    · rw [if_pos hemp]
    · rw [if_neg hemp]
      cases hv : (check_cross_tenant_leakage docs tenant).violation <;> simp [hv]

/-- C8 witness: a query containing the "bypass" pattern is rejected before
retrieval with a security event and HTTP 400. -/
theorem c8_validate_prompt_amended_witness :
    validate_prompt qBypass = some ("bypass") ∧
    (generate_response qBypass [docB] tenantA =
       ⟨.injectionRejected "bypass", 0, ["prompt_injection"], false, false⟩ ∧
     route_status (generate_response qBypass [docB] tenantA).outcome
       = 400) :=
  ⟨by decide,
   c8_validate_prompt_amended.2.1 qBypass ("bypass") [docB]
     tenantA (by decide)⟩

/-- Concrete bucket for the C3 witness: capacity 10, 5 tokens, rate 1/s,
last refill at t = 0. -/
def bucketW : TokenBucket := ⟨10, 5, 1, some 0⟩

/-- C3: try_consume first refills `(now - last_refill) * refill_rate` tokens
capped at capacity, then consumes `req` iff that many are present (consuming
nothing otherwise); over a window with no admission the token gain is
`min (capacity - tokens_before) (refill_rate * Δt)`; and the token count
stays within [0, capacity]. -/
theorem c3_token_bucket_refill (b : TokenBucket) (req now : ℚ)
    (h0 : 0 ≤ b.tokens) (hcap : b.tokens ≤ b.capacity)
    (hrate : 0 ≤ b.refill_rate) (hreq : 0 ≤ req)
    (hmono : ∀ t0, b.last_refill_time = some t0 → t0 ≤ now) :
    ((b.try_consume req now).1 = true ↔ req ≤ b.refilled now) ∧
    (b.try_consume req now).2.tokens =
      b.refilled now - (if req ≤ b.refilled now then req else 0) ∧
    ((b.try_consume req now).1 = false → ∀ t0, b.last_refill_time = some t0 →
       (b.try_consume req now).2.tokens - b.tokens =
         min (b.capacity - b.tokens) (b.refill_rate * (now - t0))) ∧
    0 ≤ (b.try_consume req now).2.tokens ∧
    (b.try_consume req now).2.tokens ≤ b.capacity ∧
    (b.try_consume req now).2.capacity = b.capacity := by
  have hrf0 : 0 ≤ b.refilled now := by
    unfold TokenBucket.refilled
    rw [le_min_iff]
    refine ⟨le_trans h0 hcap, ?_⟩
    cases hl : b.last_refill_time with
    | none =>
      simp only [Option.getD]
      have : (now - now) * b.refill_rate = 0 := by ring
      rw [this]
      simpa using h0
    | some t0 =>
      have ht := hmono t0 hl
      simp only [Option.getD]
      have : 0 ≤ (now - t0) * b.refill_rate :=
        mul_nonneg (by linarith) hrate
      linarith
  have hrfc : b.refilled now ≤ b.capacity := min_le_left _ _
  have hwin : ∀ t0, b.last_refill_time = some t0 →
      b.refilled now - b.tokens =
        min (b.capacity - b.tokens) (b.refill_rate * (now - t0)) := by
    intro t0 hl
    unfold TokenBucket.refilled
    rw [hl]
    simp only [Option.getD]
    rw [← min_sub_sub_right]
    ring_nf
  unfold TokenBucket.try_consume
  by_cases h : req ≤ b.refilled now
  · rw [if_pos h]
    refine ⟨by simp [h], by simp [h], by simp, ?_, ?_, rfl⟩
    · simpa using sub_nonneg.mpr h
    · have : b.refilled now - req ≤ b.refilled now := by linarith
      simpa using le_trans this hrfc
  · rw [if_neg h]
    refine ⟨by simpa using h, by simp [h], ?_, by simpa using hrf0,
           by simpa using hrfc, rfl⟩
    intro _ t0 hl
    simpa using hwin t0 hl

/-- C3 witness: the theorem at the concrete bucket, plus the evaluated
result: refill to min(10, 5 + 2·1) = 7, then consume 1 leaving 6. -/
theorem c3_token_bucket_refill_witness :
    ((0:ℚ) ≤ bucketW.tokens ∧ bucketW.tokens ≤ bucketW.capacity ∧
       (0:ℚ) ≤ bucketW.refill_rate ∧ (0:ℚ) ≤ (1:ℚ) ∧
       (∀ t0, bucketW.last_refill_time = some t0 → t0 ≤ (2:ℚ))) ∧
    (bucketW.try_consume 1 2).2.tokens = 6 ∧
    (((bucketW.try_consume 1 2).1 = true ↔ (1:ℚ) ≤ bucketW.refilled 2) ∧
      (bucketW.try_consume 1 2).2.tokens =
        bucketW.refilled 2 - (if (1:ℚ) ≤ bucketW.refilled 2 then 1 else 0) ∧
      ((bucketW.try_consume 1 2).1 = false →
        ∀ t0, bucketW.last_refill_time = some t0 →
         (bucketW.try_consume 1 2).2.tokens - bucketW.tokens =
           min (bucketW.capacity - bucketW.tokens)
             (bucketW.refill_rate * (2 - t0))) ∧
      0 ≤ (bucketW.try_consume 1 2).2.tokens ∧
      (bucketW.try_consume 1 2).2.tokens ≤ bucketW.capacity ∧
      (bucketW.try_consume 1 2).2.capacity = bucketW.capacity) :=
  ⟨⟨by decide, by decide, by decide, by decide,
    by
      intro t0 ht
      simp only [bucketW, Option.some.injEq] at ht
      rw [← ht]
      norm_num⟩,
   by norm_num [bucketW, TokenBucket.try_consume, TokenBucket.refilled, min_def],
   c3_token_bucket_refill bucketW 1 2 (by decide) (by decide) (by decide)
     (by decide)
     (by
       intro t0 ht
       simp only [bucketW, Option.some.injEq] at ht
       rw [← ht]
       norm_num)⟩

/-! ### Queue claims -/

/-- A queued Free-tier request used to fill queues. -/
def rFree : QueuedRequest := ⟨"r-free", "tenant-f", "u1", 3, 0⟩

/-- One more arriving request. -/
def rNew : QueuedRequest := ⟨"r-new", "tenant-n", "u2", 2, 5⟩

/-- A state with both the local queue and the global queue at
MAX_QUEUE_DEPTH. -/
def stFull : PQState :=
  ⟨List.replicate 100 rFree, List.replicate 100 (rFree, 0)⟩

/-- C4, counterexample to the claim as stated: with both queues at capacity,
enqueue still succeeds (no Overflow result exists) and grows the global
queue beyond MAX_QUEUE_DEPTH. -/
theorem c4_counterexample :
    stFull.local_q.length = MAX_QUEUE_DEPTH ∧
    stFull.global_q.length = MAX_QUEUE_DEPTH ∧
    (stFull.enqueue rNew).1 = rNew ∧
    (stFull.enqueue rNew).2.global_q.length = MAX_QUEUE_DEPTH + 1 := by
  refine ⟨by simp [stFull, MAX_QUEUE_DEPTH], by simp [stFull, MAX_QUEUE_DEPTH],
    by simp [stFull, PQState.enqueue, MAX_QUEUE_DEPTH],
    by simp [stFull, PQState.enqueue, MAX_QUEUE_DEPTH]⟩

/-- C4 (amended): enqueue pushes onto the local FIFO queue when its depth is
below MAX_QUEUE_DEPTH and otherwise spills to the global priority queue
unconditionally; it always returns the queued request — there is no Overflow
result — and a spill grows the global queue by one, beyond any bound. -/
theorem c4_enqueue_amended :
    ∀ (st : PQState) (r : QueuedRequest),
      (st.enqueue r).1 = r ∧
      (st.local_q.length < MAX_QUEUE_DEPTH →
         (st.enqueue r).2 = ⟨r :: st.local_q, st.global_q⟩) ∧
      (MAX_QUEUE_DEPTH ≤ st.local_q.length →
         (st.enqueue r).2 = ⟨st.local_q, st.global_q ++ [(r, priorityScore r)]⟩ ∧
         (st.enqueue r).2.global_q.length = st.global_q.length + 1 ∧
         (st.enqueue r).2.local_q = st.local_q) := by
  intro st r
  unfold PQState.enqueue
  by_cases h : st.local_q.length < MAX_QUEUE_DEPTH
  · rw [if_pos h]
    exact ⟨rfl, fun _ => rfl, fun hle => absurd h (not_lt.mpr hle)⟩
  · rw [if_neg h]
    exact ⟨rfl, fun hlt => absurd hlt h, fun _ => ⟨rfl, by simp, rfl⟩⟩

/-- C4 witness: the amended theorem applied to the full state. -/
theorem c4_enqueue_amended_witness :
    MAX_QUEUE_DEPTH ≤ stFull.local_q.length ∧
    ((stFull.enqueue rNew).2 =
       ⟨stFull.local_q, stFull.global_q ++ [(rNew, priorityScore rNew)]⟩ ∧
     (stFull.enqueue rNew).2.global_q.length = stFull.global_q.length + 1 ∧
     (stFull.enqueue rNew).2.local_q = stFull.local_q) :=
  ⟨by simp [stFull, MAX_QUEUE_DEPTH],
   (c4_enqueue_amended stFull rNew).2.2 (by simp [stFull, MAX_QUEUE_DEPTH])⟩

/-! ### Helper lemmas on the global sorted set -/

/-- ZRANGE 0 0 finds something on every non-empty set. -/
theorem zrange00_eq_none : ∀ {g : List (QueuedRequest × ℚ)},
    zrange00 g = none → g = [] := by
  intro g h
  cases g with
  | nil => rfl
  | cons a as =>
    unfold zrange00 at h
    cases hz : zrange00 as with
    | none =>
      rw [hz] at h
      exact Option.noConfusion h
    | some q =>
      rw [hz] at h
      dsimp only at h
      split at h
      · exact Option.noConfusion h
      · exact Option.noConfusion h

/-- ZRANGE 0 0 returns a member of the set. -/
theorem zrange00_mem : ∀ {g : List (QueuedRequest × ℚ)} {p},
    zrange00 g = some p → p ∈ g := by
  intro g
  induction g with
  | nil => intro p h; cases h
  | cons a as ih =>
    intro p h
    unfold zrange00 at h
    cases hz : zrange00 as with
    | none =>
      rw [hz] at h
      cases h
      exact List.mem_cons_self a as
    | some q =>
      rw [hz] at h
      dsimp only at h
      split at h
      · cases h
        exact List.mem_cons_self a as
      · cases h
        exact List.mem_cons_of_mem a (ih hz)

/-- ZRANGE 0 0 returns a minimum-score member. -/
theorem zrange00_min : ∀ {g : List (QueuedRequest × ℚ)} {p},
    zrange00 g = some p → ∀ q ∈ g, p.2 ≤ q.2 := by
  intro g
  induction g with
  | nil => intro p h; cases h
  | cons a as ih =>
    intro p h q hq
    unfold zrange00 at h
    cases hz : zrange00 as with
    | none =>
      rw [hz] at h
      cases h
      have has : as = [] := zrange00_eq_none hz
      subst has
      rcases List.mem_cons.mp hq with hqa | hqas
      · rw [hqa]
      · cases hqas
    | some m =>
      rw [hz] at h
      dsimp only at h
      split at h
      next hle =>
        cases h
        rcases List.mem_cons.mp hq with hqa | hqas
        · rw [hqa]
        · exact le_trans hle (ih hz q hqas)
      next hle =>
        cases h
        rcases List.mem_cons.mp hq with hqa | hqas
        · rw [hqa]
          exact le_of_not_le hle
        · exact ih hz q hqas

/-- C5: dequeue prefers the local queue, returning its last element — the
oldest one, since enqueue LPUSH-prepends — and otherwise removes and returns
a minimum-score member of the global queue, whose stored scores are exactly
`tier_priority * 10^9 + submitted_at`; with both queues empty it returns
none. -/
theorem c5_dequeue_spec :
    (∀ st : PQState, st.local_q = [] → st.global_q = [] →
       st.dequeue = (none, st)) ∧
    (∀ (st : PQState) (rs : List QueuedRequest) (r : QueuedRequest),
       st.local_q = rs ++ [r] →
       st.dequeue = (some r, ⟨rs, st.global_q⟩)) ∧
    (∀ (st : PQState) (r : QueuedRequest),
       st.local_q.length < MAX_QUEUE_DEPTH →
       (st.enqueue r).2.local_q = r :: st.local_q) ∧
    (∀ (st : PQState) (p : QueuedRequest × ℚ), st.local_q = [] →
       zrange00 st.global_q = some p →
       st.dequeue = (some p.1, ⟨[], st.global_q.erase p⟩) ∧
       p ∈ st.global_q ∧ ∀ q ∈ st.global_q, p.2 ≤ q.2) ∧
    (∀ (st : PQState) (r : QueuedRequest),
       (∀ p ∈ st.global_q, p.2 = priorityScore p.1) →
       ∀ p ∈ (st.enqueue r).2.global_q, p.2 = priorityScore p.1) := by
  refine ⟨?_, ?_, ?_, ?_, ?_⟩
  · intro st h1 h2
    cases st with
    | mk lq gq =>
      simp only at h1 h2
      subst h1; subst h2
      rfl
  · intro st rs r hloc
    cases st with
    | mk lq gq =>
      simp only at hloc
      subst hloc
      simp [PQState.dequeue, List.getLast?_concat, List.dropLast_concat]
  · intro st r h
    unfold PQState.enqueue
    rw [if_pos h]
  · intro st p hloc hz
    cases st with
    | mk lq gq =>
      simp only at hloc hz
      subst hloc
      refine ⟨?_, zrange00_mem hz, zrange00_min hz⟩
      simp [PQState.dequeue, hz]
  · intro st r hinv p hp
    unfold PQState.enqueue at hp
    by_cases h : st.local_q.length < MAX_QUEUE_DEPTH
    · rw [if_pos h] at hp
      exact hinv p hp
    · rw [if_neg h] at hp
      simp only at hp
      rcases List.mem_append.mp hp with hold | hnew
      · exact hinv p hold
      · rcases List.mem_singleton.mp hnew with h2
        rw [h2]

/-- A two-element local queue for the C5 witness: rNew was enqueued first,
rFree second. -/
def stTwo : PQState := ⟨[rFree, rNew], []⟩

/-- C5 witness: dequeuing the two-element local queue returns the oldest
element rNew (FIFO) and leaves rFree queued. -/
theorem c5_dequeue_spec_witness :
    stTwo.local_q = [rFree] ++ [rNew] ∧
    stTwo.dequeue = (some rNew, ⟨[rFree], stTwo.global_q⟩) :=
  ⟨rfl, c5_dequeue_spec.2.1 stTwo [rFree] rNew rfl⟩

/-! ### Fair-scheduler claim -/

/-- int(50 * 0.50) = 25. -/
theorem tierCap_enterprise : tierCap .enterprise = 25 := by
  unfold tierCap MAX_INFLIGHT_PER_POD FAIR_SHARES
  norm_num [Int.floor_eq_iff]

/-- int(50 * 0.30) = 15. -/
theorem tierCap_professional : tierCap .professional = 15 := by
  unfold tierCap MAX_INFLIGHT_PER_POD FAIR_SHARES
  norm_num [Int.floor_eq_iff]

/-- int(50 * 0.15) = 7. -/
theorem tierCap_starter : tierCap .starter = 7 := by
  unfold tierCap MAX_INFLIGHT_PER_POD FAIR_SHARES
  norm_num [Int.floor_eq_iff]

/-- int(50 * 0.05) = 2. -/
theorem tierCap_free : tierCap .free = 2 := by
  unfold tierCap MAX_INFLIGHT_PER_POD FAIR_SHARES
  norm_num [Int.floor_eq_iff]

/-- A scheduler state: one Free-tier tenant holds all 25 in-flight slots. -/
def sBug : FairScheduler := ⟨[("free-corp", 25)], 25⟩

/-- A waiting Enterprise request (priority 0). -/
def rEnt : QueuedRequest := ⟨"r-ent", "acme", "u9", 0, 1000⟩

/-- Queue state with the Enterprise request waiting locally. -/
def pqBug : PQState := ⟨[rEnt], []⟩

/-- C2, the code bug evaluated: _get_in_flight_for_tier returns the same
total (25, all of it Free-tier traffic) for every tier, so with an
Enterprise request waiting, zero Enterprise requests in flight, and total
in-flight 25 < MAX_INFLIGHT_PER_POD, schedule_next still returns none —
there is no per-tier counting and no work-conservation fallback. -/
theorem c2_scheduler_divergence :
    (∀ t : Tier, sBug.get_in_flight_for_tier t = 25) ∧
    sBug.total_in_flight = 25 ∧
    25 < MAX_INFLIGHT_PER_POD ∧
    pqBug.local_q = [rEnt] ∧
    rEnt.priority = tierPriority .enterprise ∧
    FairScheduler.schedule_next sBug pqBug = (none, sBug, pqBug) := by
  have hif : ∀ t : Tier, sBug.get_in_flight_for_tier t = 25 := fun _ => rfl
  have htc : ∀ t : Tier, ¬ ((sBug.get_in_flight_for_tier t : ℤ) < tierCap t) := by
    intro t
    rw [hif t]
    cases t <;>
      simp [tierCap_enterprise, tierCap_professional, tierCap_starter, tierCap_free]
  refine ⟨hif, rfl, by decide, rfl, rfl, ?_⟩
  unfold FairScheduler.schedule_next
  rw [if_neg (by decide)]
  unfold tiersInOrder
  rw [scheduleGo, if_neg (htc .enterprise)]
  rw [scheduleGo, if_neg (htc .professional)]
  rw [scheduleGo, if_neg (htc .starter)]
  rw [scheduleGo, if_neg (htc .free)]
  rfl

/-! ### Circuit-breaker claim -/

/-- C6: with the breaker Open, every call before reset_timeout elapses
short-circuits without invoking the adapter — in particular the call right
after the fail_max-th consecutive failure; a closed breaker at fail_max - 1
failures trips Open on the next failure; after reset_timeout one half-open
probe runs: success closes the breaker resetting the counter, failure
reopens it restarting the timer. -/
theorem c6_circuit_breaker (b : CircuitBreaker) :
    (∀ (f : Nat) (now : ℚ), b.state = .closed f → b.fail_max ≤ f + 1 →
       b.call now false = (.failed, { b with state := .opened now })) ∧
    (∀ (t0 now : ℚ) (s : Bool), b.state = .opened t0 →
       now - t0 < b.reset_timeout →
       b.call now s = (.shortCircuited, b) ∧
       adapterInvoked (b.call now s).1 = false) ∧
    (∀ (t0 now : ℚ), b.state = .opened t0 → b.reset_timeout ≤ now - t0 →
       b.call now true = (.succeeded, { b with state := .closed 0 })) ∧
    (∀ (t0 now : ℚ), b.state = .opened t0 → b.reset_timeout ≤ now - t0 →
       b.call now false = (.failed, { b with state := .opened now })) := by
  obtain ⟨fm, rt, st⟩ := b
  refine ⟨?_, ?_, ?_, ?_⟩
  · intro f now hst hfm
    simp only at hst
    subst hst
    simp [CircuitBreaker.call, hfm]
  · intro t0 now s hst hlt
    simp only at hst
    subst hst
    have hc : CircuitBreaker.call ⟨fm, rt, .opened t0⟩ now s =
        (.shortCircuited, ⟨fm, rt, .opened t0⟩) := by
      simp [CircuitBreaker.call, hlt]
    exact ⟨hc, by rw [hc]; rfl⟩
  · intro t0 now hst hge
    simp only at hst
    subst hst
    simp [CircuitBreaker.call, not_lt.mpr hge]
  · intro t0 now hst hge
    simp only at hst
    subst hst
    simp [CircuitBreaker.call, not_lt.mpr hge]

/-- The llm breaker after five consecutive failures at t = 0..4. -/
def cbTrip : CircuitBreaker := failCalls (llm_breaker (.closed 0)) [0, 1, 2, 3, 4]

/-- C6 witness: five consecutive failures trip the breaker Open at t = 4;
the sixth call (t = 5, within the 60s window) short-circuits without
invoking the adapter; the probe at t = 70 succeeds and closes the breaker
with the counter reset. -/
theorem c6_circuit_breaker_witness :
    cbTrip = llm_breaker (.opened 4) ∧
    (cbTrip.call 5 true = (.shortCircuited, cbTrip) ∧
     adapterInvoked (cbTrip.call 5 true).1 = false) ∧
    cbTrip.call 70 true = (.succeeded, { cbTrip with state := .closed 0 }) := by
  have h1 : cbTrip = llm_breaker (.opened 4) := by decide
  have hst : cbTrip.state = .opened 4 := by decide
  have hrt : cbTrip.reset_timeout = 60 := by decide
  refine ⟨h1, ?_, ?_⟩
  · exact (c6_circuit_breaker cbTrip).2.1 4 5 true hst
      (by rw [hrt]; norm_num)
  · exact (c6_circuit_breaker cbTrip).2.2.1 4 70 hst
      (by rw [hrt]; norm_num)

/-! ### Retry claim -/

/-- C7, counterexample to the claim as stated: the retry predicate is
`retry_if_exception_type((Exception,))`, so a circuit_open failure and a
validation failure are both retried — three invocations are made where the
claim requires one. -/
theorem c7_counterexample :
    with_retry_run [.err .circuitOpen, .err .circuitOpen, .err .circuitOpen] =
      (3, .err .circuitOpen) ∧
    with_retry_run [.err .validation, .err .validation, .err .validation] =
      (3, .err .validation) ∧
    retry_on_exception .circuitOpen = true ∧
    retry_on_exception .validation = true := by decide

/-- One attempt always happens on a non-empty outcome list. -/
theorem ewrAux_pos (r : AttemptOutcome) (rs : List AttemptOutcome)
    (a maxR : Nat) : 1 ≤ (ewrAux a maxR (r :: rs)).1 := by
  unfold ewrAux
  cases r with
  | ok => simp
  | err e =>
    dsimp only
    by_cases he : a = maxR - 1
    · rw [if_pos he]
    · rw [if_neg he]
      simp

/-- The waits of execute_with_resilience are the consecutive powers of two
starting at 2 ^ attempt. -/
theorem ewrAux_waits : ∀ (results : List AttemptOutcome) (a maxR : Nat),
    (ewrAux a maxR results).2.1 =
      (List.range' a (ewrAux a maxR results).2.1.length).map
        (fun k => (2 : ℚ) ^ k) := by
  intro results
  induction results with
  | nil => intro a maxR; rfl
  | cons r rs ih =>
    intro a maxR
    unfold ewrAux
    cases r with
    | ok => rfl
    | err e =>
      dsimp only
      by_cases he : a = maxR - 1
      · rw [if_pos he]
        rfl
      · rw [if_neg he]
        dsimp only
        rw [ih (a + 1) maxR]
        simp [List.range'_succ]

/-- C7 (amended): at most max_attempts (3 by default) invocations are made
and a failed attempt that is not the last is always retried — for every
error kind, validation and circuit_open included, because the installed
predicate retries on every Exception; ResilientClient's explicit loop
likewise caps invocations at max_retries and sleeps 2^attempt seconds
(2^(k-1) before the k-th re-attempt, with no max_wait cap) between
attempts. -/
theorem c7_retry_amended :
    (∀ (maxA : Nat) (results : List AttemptOutcome), 1 ≤ maxA →
       (runRetry retry_on_exception maxA results).1 ≤ maxA) ∧
    (∀ (e : ErrKind) (rs : List AttemptOutcome) (maxA : Nat), 2 ≤ maxA →
       (runRetry retry_on_exception maxA (.err e :: rs)).1 =
         (runRetry retry_on_exception (maxA - 1) rs).1 + 1) ∧
    (∀ (maxR : Nat) (results : List AttemptOutcome), 1 ≤ maxR →
       (execute_with_resilience maxR results).1 ≤ maxR) ∧
    (∀ (maxR : Nat) (results : List AttemptOutcome),
       (execute_with_resilience maxR results).2.1 =
         (List.range (execute_with_resilience maxR results).2.1.length).map
           (fun k => (2 : ℚ) ^ k)) := by
  have haux : ∀ (results : List AttemptOutcome) (a maxR : Nat), a < maxR →
      (ewrAux a maxR results).1 ≤ maxR - a := by
    intro results
    induction results with
    | nil => intro a maxR h; simp [ewrAux]
    | cons r rs ih =>
      intro a maxR h
      unfold ewrAux
      cases r with
      | ok => simp [Nat.le_sub_of_add_le, (by omega : 1 + a ≤ maxR)]
      | err e =>
        dsimp only
        by_cases he : a = maxR - 1
        · rw [if_pos he]
          simpa using Nat.le_sub_of_add_le (by omega)
        · rw [if_neg he]
          have h1 : a + 1 < maxR := by omega
          have := ih (a + 1) maxR h1
          dsimp only
          omega
  refine ⟨?_, ?_, ?_, ?_⟩
  · intro maxA results h
    induction results generalizing maxA with
    | nil => simp [runRetry]
    | cons r rs ih =>
      unfold runRetry
      cases r with
      | ok => simpa using h
      | err e =>
        dsimp only
        by_cases h1 : maxA ≤ 1
        · rw [if_pos h1]
          simpa using h
        · rw [if_neg h1]
          simp only [retry_on_exception, if_true]
          have h2 : 1 ≤ maxA - 1 := by omega
          have := ih (maxA - 1) h2
          omega
  · intro e rs maxA h
    conv_lhs => rw [runRetry]
    rw [if_neg (by omega : ¬ maxA ≤ 1)]
    simp [retry_on_exception]
  · intro maxR results h
    have := haux results 0 maxR h
    simpa [execute_with_resilience] using this
  · intro maxR results
    have := ewrAux_waits results 0 maxR
    simpa [execute_with_resilience, List.range_eq_range'] using this

/-- C7 witness: the amended theorem at max_attempts = 3 with a transient
failure then success (two invocations), and a circuit_open failure that is
retried. -/
theorem c7_retry_amended_witness :
    (1 ≤ 3 ∧ (runRetry retry_on_exception 3 [.err .transient, .ok]).1 ≤ 3) ∧
    (2 ≤ 3 ∧ (runRetry retry_on_exception 3 (.err .circuitOpen :: [.ok])).1 =
       (runRetry retry_on_exception 2 [.ok]).1 + 1) ∧
    (runRetry retry_on_exception 3 [.err .transient, .ok]).1 = 2 :=
  ⟨⟨by decide, c7_retry_amended.1 3 [.err .transient, .ok] (by decide)⟩,
   ⟨by decide, c7_retry_amended.2.1 .circuitOpen [.ok] 3 (by decide)⟩,
   by decide⟩

/-! ### Cache-key claim -/

/-- Joining a head onto a non-empty tail inserts one separator. -/
theorem joinColon_cons (x : String) (args : List String) (h : args ≠ []) :
    joinColon (x :: args) = x ++ ":" ++ joinColon args := by
  cases args with
  | nil => exact absurd rfl h
  | cons y ys => rfl

/-- Anything extending `tenant:` matches the tenant's SCAN glob. -/
theorem matchesTenantGlob_append (tenant rest : String) :
    matchesTenantGlob tenant (tenant ++ ":" ++ rest) = true := by
  unfold matchesTenantGlob
  rw [List.isPrefixOf_iff_prefix]
  have h2 : (tenant ++ ":" ++ rest).toList =
      (tenant ++ ":").toList ++ rest.toList := by
    simp [String.toList, String.data_append]
  rw [h2]
  exact List.prefix_append _ _

/-- C9: every cache key get_cache_key builds from a non-empty part list —
hence every key cache set/get/delete uses — extends `tenant_id:`; a key
longer than 200 characters is replaced by `tenant_id:` plus the digest of
the full key, keeping the prefix; and clear_tenant_cache deletes exactly
the keys matching the tenant's prefix glob. -/
theorem c9_cache_key_isolation (md5hex : String → String)
    (tenant key : String) (args : List String) (h : args ≠ [])
    (store : List (String × String)) :
    (∃ rest, get_cache_key md5hex tenant args = tenant ++ ":" ++ rest) ∧
    (200 < (joinColon (tenant :: args)).length →
       get_cache_key md5hex tenant args =
         tenant ++ ":" ++ md5hex (joinColon (tenant :: args))) ∧
    ((joinColon (tenant :: args)).length ≤ 200 →
       get_cache_key md5hex tenant args = joinColon (tenant :: args)) ∧
    (∃ rest, cacheOpKey md5hex tenant key = tenant ++ ":" ++ rest) ∧
    (∀ rest, matchesTenantGlob tenant (tenant ++ ":" ++ rest) = true) ∧
    (∀ kv ∈ (clear_tenant_cache store tenant).2,
       matchesTenantGlob tenant kv.1 = false) ∧
    (∀ kv ∈ store, matchesTenantGlob tenant kv.1 = false →
       kv ∈ (clear_tenant_cache store tenant).2) := by
  refine ⟨?_, ?_, ?_, ?_, ?_, ?_, ?_⟩
  · unfold get_cache_key
    by_cases hl : 200 < (joinColon (tenant :: args)).length
    · rw [if_pos hl]
      exact ⟨md5hex (joinColon (tenant :: args)), rfl⟩
    · rw [if_neg hl]
      exact ⟨joinColon args, joinColon_cons tenant args h⟩
  · intro hl
    unfold get_cache_key
    rw [if_pos hl]
  · intro hl
    unfold get_cache_key
    rw [if_neg (not_lt.mpr hl)]
  · unfold cacheOpKey get_cache_key
    by_cases hl : 200 < (joinColon (tenant :: [key])).length
    · rw [if_pos hl]
      exact ⟨md5hex (joinColon (tenant :: [key])), rfl⟩
    · rw [if_neg hl]
      exact ⟨key, rfl⟩
  · exact matchesTenantGlob_append tenant
  · intro kv hkv
    unfold clear_tenant_cache at hkv
    simp only [List.mem_filter] at hkv
    simpa using hkv.2
  · intro kv hkv hnm
    unfold clear_tenant_cache
    simp only [List.mem_filter]
    exact ⟨hkv, by simpa using hnm⟩

/-- Fixed digest stand-in for the C9 witness. -/
def md5W : String → String := fun _ => "d41d8cd9"

/-- A keyspace holding one key of tenant acme and one of tenant globex. -/
def storeW : List (String × String) := [("acme:q1", "x"), ("globex:q1", "y")]

/-- C9 witness: concrete short key keeps the prefix, and clearing acme's
cache keeps exactly the globex key. -/
theorem c9_cache_key_isolation_witness :
    ((["k1", "k2"] : List String) ≠ []) ∧
    get_cache_key md5W ("acme") ["k1", "k2"] = ("acme:k1:k2") ∧
    (("globex:q1", "y") ∈ (clear_tenant_cache storeW ("acme")).2) ∧
    (clear_tenant_cache storeW ("acme")).2 = [("globex:q1", "y")] :=
  ⟨by decide, by decide,
   (c9_cache_key_isolation md5W ("acme") ("q1") ["k1", "k2"] (by decide)
       storeW).2.2.2.2.2.2 ("globex:q1", "y") (by decide) (by decide),
   by decide⟩

end Platform
